import Mathlib

set_option maxRecDepth 8000

/-! Verification development for the pynasapower / pyNASAPower climate-data
client. Python text operations are modelled at the character-list level
(`String.data`); Python floats are modelled as exact rationals; fallible
Python code is modelled with `Except`. -/

/-- Python str.split(sep) for a one-character separator; keeps empty chunks. -/
def splitOnChar (sep : Char) : List Char → List (List Char)
  | [] => [[]]
  | c :: cs =>
    if c = sep then [] :: splitOnChar sep cs
    else
      match splitOnChar sep cs with
      | [] => [[c]]
      | h :: t => (c :: h) :: t

/-- Python str.split(sep) for a multi-character separator, with recursion fuel
(set to the length of the string by `splitOnList`, which always suffices). -/
def splitOnListFuel (sep : List Char) : Nat → List Char → List (List Char)
  | 0, s => [s]
  | _ + 1, [] => [[]]
  | fuel + 1, c :: cs =>
    if sep.isPrefixOf (c :: cs) then
      [] :: splitOnListFuel sep fuel ((c :: cs).drop sep.length)
    else
      match splitOnListFuel sep fuel cs with
      | [] => [[c]]
      | h :: t => (c :: h) :: t

/-- Python str.split(sep) for a nonempty multi-character separator. -/
def splitOnList (sep s : List Char) : List (List Char) :=
  splitOnListFuel sep s.length s

/-- Python str.strip(): remove leading and trailing whitespace. -/
def trimChars (s : List Char) : List Char :=
  ((s.dropWhile Char.isWhitespace).reverse.dropWhile Char.isWhitespace).reverse

/-- Python sep.join for a one-character separator. -/
def joinChar (sep : Char) : List (List Char) → List Char
  | [] => []
  | [x] => x
  | x :: xs => x ++ sep :: joinChar sep xs

/-- Python ",".join(parameters). -/
def commaJoin (l : List String) : String :=
  String.mk (joinChar ',' (l.map String.data))

/-- Decimal digit character. -/
def digitChar : Nat → Char
  | 0 => '0'
  | 1 => '1'
  | 2 => '2'
  | 3 => '3'
  | 4 => '4'
  | 5 => '5'
  | 6 => '6'
  | 7 => '7'
  | 8 => '8'
  | _ => '9'

/-- Little-endian decimal digits of n (fuel-based, structurally recursive). -/
def digitsRevFuel : Nat → Nat → List Nat
  | 0, _ => []
  | _ + 1, 0 => []
  | fuel + 1, n => n % 10 :: digitsRevFuel fuel (n / 10)

/-- Decimal numeral of a natural number, as Python str(n) / format {}. -/
def decChars (n : Nat) : List Char :=
  if n = 0 then ['0'] else ((digitsRevFuel n n).map digitChar).reverse

/-- Decimal numeral as a string. -/
def decStr (n : Nat) : String := String.mk (decChars n)

/-- Two-digit zero-padded field, as Python strftime %m / %d (fields < 100). -/
def pad2 (n : Nat) : List Char := [digitChar (n / 10), digitChar (n % 10)]

/-- A calendar date as held by a Python datetime.date value. -/
structure PyDate where
  year : Nat
  month : Nat
  day : Nat
deriving DecidableEq

/-- Python date comparison a < b (lexicographic on year, month, day). -/
def PyDate.ltb (a b : PyDate) : Bool :=
  a.year < b.year ||
    (a.year == b.year && (a.month < b.month || (a.month == b.month && a.day < b.day)))

/-- Python strftime("%Y"): the decimal year. -/
def fmtY (d : PyDate) : String := String.mk (decChars d.year)

/-- Python strftime("%Y%m%d"). -/
def fmtYMD (d : PyDate) : String :=
  String.mk (decChars d.year ++ pad2 d.month ++ pad2 d.day)

/-- An argument passed where a datetime.date is expected: an actual date, or
a value of some other type (the isinstance check fails). -/
inductive DateArg
  | date (d : PyDate)
  | notDate
deriving DecidableEq

/-- One geometry row of a GeoDataFrame: its geom_type together with the
coordinates / bounds the source reads. Geometry construction and
reprojection are external collaborators, so a row carries the already
canonical values. -/
inductive GeomRow
  | point (x y : ℚ)
  | polygon (minx miny maxx maxy : ℚ)
  | other
deriving DecidableEq

/-- The geometry argument: a GeoDataFrame with its rows, or a value of
another type (the isinstance check fails). -/
inductive GeomArg
  | gdf (rows : List GeomRow)
  | notGdf
deriving DecidableEq

/-- Whether the row has geom_type "Point". -/
def GeomRow.isPointRow : GeomRow → Bool
  | .point _ _ => true
  | _ => false

/-- Whether the row has geom_type "Polygon". -/
def GeomRow.isPolygonRow : GeomRow → Bool
  | .polygon _ _ _ _ => true
  | _ => false

/-- Error taxonomy: typeKind = Python TypeError, valueKind = Python
ValueError (and its pandas/json subclasses), protocolKind =
requests.exceptions.HTTPError, indexKind = Python IndexError. -/
inductive ErrKind
  | typeKind
  | valueKind
  | protocolKind
  | indexKind
deriving DecidableEq

/-- A raised Python exception: its kind and message. -/
structure Err where
  kind : ErrKind
  msg : String
deriving DecidableEq

instance {ε α : Type} [DecidableEq ε] [DecidableEq α] : DecidableEq (Except ε α) := fun x y =>
  match x, y with
  | .ok a, .ok b =>
    if h : a = b then isTrue (by rw [h]) else isFalse (fun hc => h (Except.ok.inj hc))
  | .error a, .error b =>
    if h : a = b then isTrue (by rw [h]) else isFalse (fun hc => h (Except.error.inj hc))
  | .ok _, .error _ => isFalse (fun hc => Except.noConfusion hc)
  | .error _, .ok _ => isFalse (fun hc => Except.noConfusion hc)

/-- get_data.py line 10. -/
def DEFAULT_POWER_VARIABLES : List String :=
  ["TOA_SW_DWN", "ALLSKY_SFC_SW_DWN", "T2M", "T2M_MIN", "T2M_MAX", "T2MDEW", "WS2M",
    "PRECTOTCORR"]

/-- get_data.py line 42. -/
def available_temporal : List String := ["hourly", "daily", "monthly", "climatology"]

/-- get_data.py line 46. -/
def available_communities : List String := ["ag", "sb", "re"]

/-- get_data.py line 50. -/
def available_spatial : List String := ["point", "regional"]

/-- get_data.py line 54. -/
def available_formats : List String := ["netcdf", "ascii", "json", "csv"]

/-- get_data.py line 11. -/
def HTTP_OK : Nat := 200

/-- get_data.py lines 61-62: an empty parameters list is replaced by the
default variable list before any further use. -/
def effParams (parameters : List String) : List String :=
  if parameters = [] then DEFAULT_POWER_VARIABLES else parameters

/-- The per-resolution variable-count ceiling (get_data.py lines 64-74). -/
def ceilingOf (temporal_api : String) : Nat :=
  if temporal_api = "hourly" then 15 else 20

/-- The kind of a raised error, if any. -/
def errKind {α : Type} : Except Err α → Option ErrKind
  | .error e => some e.kind
  | .ok _ => none

/-- get_data.py line 140: the endpoint URL. -/
def serverUrl (temporal_api spatial_api : String) : String :=
  "https://power.larc.nasa.gov/api/temporal/" ++ temporal_api ++ "/" ++ spatial_api ++ "?"

/-- The flat key/value query mapping handed to requests (get_data.py lines
142-150). The key named end in the source is called stop here (end is a
Lean keyword); the format key is called fileFormat. -/
structure WireParams where
  parameters : String
  community : String
  start : String
  stop : String
  fileFormat : String
  coords : List (String × ℚ)
deriving DecidableEq

/-- Coordinate flattening plus the regional minimum-span checks (get_data.py
lines 93-118). The other arm is unreachable: callers reject such rows
first, exactly as the source does. -/
def coordsOf : GeomRow → Except Err (List (String × ℚ))
  | .point x y => .ok [("latitude", y), ("longitude", x)]
  | .polygon minx miny maxx maxy =>
    if maxy - miny < 2 then
      .error ⟨.valueKind,
        "Please provide at least a 2 degree range in latitude; otherwise use the point endpoint."⟩
    else if maxx - minx < 2 then
      .error ⟨.valueKind,
        "Please provide at least a 2 degree range in longitude; otherwise use the point endpoint."⟩
    else
      .ok [("latitude-min", miny), ("latitude-max", maxy), ("longitude-min", minx),
        ("longitude-max", maxx)]
  | .other => .ok []

/-- The validation and request-building phase of query_power (get_data.py
lines 42-150), every check in source order. Error messages follow the
source with quote characters omitted. The climatology span check compares
int(strftime("%Y")) values, which equal the years themselves. -/
def validateBuild (geometry : GeomArg) (start stop : DateArg) (community : String)
    (parameters : List String) (temporal_api spatial_api fileFormat : String) :
    Except Err (String × WireParams) :=
  if temporal_api ∉ available_temporal then
    .error ⟨.valueKind,
      "Argument temporal_resolution must be one of: hourly, daily, monthly, climatology"⟩
  else if community ∉ available_communities then
    .error ⟨.valueKind, "Argument community must be one of: ag, sb, re"⟩
  else if spatial_api ∉ available_spatial then
    .error ⟨.valueKind, "Argument spatial_api must be one of: point, regional"⟩
  else if fileFormat ∉ available_formats then
    .error ⟨.valueKind, "Argument format must be one of: netcdf, ascii, json, csv"⟩
  else if temporal_api = "hourly" ∧ spatial_api ≠ "point" then
    .error ⟨.valueKind, "For temporal_resolution = hourly spatial_api can only be point!"⟩
  else
    if temporal_api = "hourly" ∧ (effParams parameters).length > 15 then
      .error ⟨.valueKind, "A maximum of 15 parameters can currently be requested in one submission."⟩
    else if temporal_api = "daily" ∧ (effParams parameters).length > 20 then
      .error ⟨.valueKind, "A maximum of 20 parameters can currently be requested in one submission."⟩
    else if temporal_api = "monthly" ∧ (effParams parameters).length > 20 then
      .error ⟨.valueKind, "A maximum of 20 parameters can currently be requested in one submission."⟩
    else if temporal_api = "climatology" ∧ (effParams parameters).length > 20 then
      .error ⟨.valueKind, "A maximum of 20 parameters can currently be requested in one submission."⟩
    else
      match geometry with
      | .notGdf => .error ⟨.typeKind, "Argument geometry must be a GeoDataframe."⟩
      | .gdf rows =>
        if rows.length > 1 then .error ⟨.valueKind, "Only one geometry must be provided."⟩
        else
          match rows with
          | [] => .error ⟨.indexKind, "single positional indexer is out-of-bounds"⟩
          | row :: _ =>
            if ¬row.isPointRow ∧ ¬row.isPolygonRow then
              .error ⟨.valueKind, "Argument geometry must be either a Point or a Polygon"⟩
            else if ¬row.isPointRow ∧ spatial_api = "point" then
              .error ⟨.valueKind,
                "Argument geometry must be a Point since argument spatial_api is point. Try to use pynasapower.geometry.point() to create a valid point."⟩
            else if ¬row.isPolygonRow ∧ spatial_api = "regional" then
              .error ⟨.valueKind,
                "Argument geometry must be a Polygon since argument spatial_api is regional.Try to use pynasapower.geometry.bbox() to create a valid polygon."⟩
            else
              match coordsOf row with
              | .error e => .error e
              | .ok coords =>
                match start with
                | .notDate => .error ⟨.typeKind, "Argument start must be datetime.date object."⟩
                | .date d1 =>
                  match stop with
                  | .notDate => .error ⟨.typeKind, "Argument end must be datetime.date object."⟩
                  | .date d2 =>
                    if PyDate.ltb d2 d1 then
                      .error ⟨.valueKind, "Argument start cannot be later than end!"⟩
                    else if temporal_api ∈ (["monthly", "climatology"] : List String) then
                      if temporal_api = "climatology" ∧ (d2.year : ℤ) - (d1.year : ℤ) < 2 then
                        .error ⟨.valueKind,
                          "Please provide at least a two year range to compute a climatology."⟩
                      else
                        .ok (serverUrl temporal_api spatial_api,
                          ⟨commaJoin (effParams parameters), community, fmtY d1, fmtY d2, fileFormat, coords⟩)
                    else
                      .ok (serverUrl temporal_api spatial_api,
                        ⟨commaJoin (effParams parameters), community, fmtYMD d1, fmtYMD d2, fileFormat, coords⟩)

/-- The transport response as the decoder reads it: status, the
content-disposition header, the final URL, and the body decoded as text. -/
structure RawResponse where
  status_code : Nat
  content_disposition : String
  url : String
  body : String
deriving DecidableEq

/-- A parsed tabular result: named columns and data rows. -/
structure Table where
  columns : List String
  rows : List (List String)
deriving DecidableEq

/-- The decoded result: gridded dataset (netcdf), table (csv/ascii), or raw
mapping (json). Grid and mapping payloads are kept as the raw text. -/
inductive Decoded
  | grid (body : String)
  | table (t : Table)
  | mapping (body : String)
deriving DecidableEq

/-- What a file write carries: verbatim text (open().write), a DataFrame
rendered by to_csv with a separator, or a netcdf dataset. -/
inductive WritePayload
  | text (s : String)
  | tableCsv (t : Table) (sep : Char)
  | dataset (body : String)
deriving DecidableEq

/-- Observable steps of the decoding phase. -/
inductive DecodeEvent
  | readContentDisposition
  | parseBody (fileFormat : String)
  | writeFile (path : String) (payload : WritePayload)
deriving DecidableEq

/-- os.path.join for the two-argument uses in the source. -/
def path_join (p n : String) : String :=
  if p = "" then n
  else if p.data.getLast? = some '/' then p ++ n else p ++ "/" ++ n

/-- get_data.py line 160: headers content-disposition .split("=")[1]. -/
def dispositionName (cd : String) : Except Err String :=
  match (splitOnChar '=' cd.data).get? 1 with
  | some n => .ok (String.mk n)
  | none => .error ⟨.indexKind, "list index out of range"⟩

/-- pandas.read_csv on an in-memory text buffer: the first line is the column
header row, the rest are data rows split on commas. Numeric typing and
quoting are not modelled; an empty buffer raises EmptyDataError, a
ValueError subclass. -/
def read_csv (s : List Char) : Except Err Table :=
  if s = [] then .error ⟨.valueKind, "No columns to parse from file"⟩
  else
    match (splitOnChar '\n' s).map (fun l => (splitOnChar ',' l).map String.mk) with
    | [] => .error ⟨.valueKind, "No columns to parse from file"⟩
    | header :: dataRows => .ok ⟨header, dataRows⟩

/-- The response-decoding phase of query_power (get_data.py lines 154-191),
with file-system writes and header/body accesses recorded as events, in
source order. A body without exactly one sentinel raises the unpack
ValueError of line 168. -/
def decode (resp : RawResponse) (fileFormat : String) (to_file : Bool) (path : String) :
    List DecodeEvent × Except Err Decoded :=
  if resp.status_code ≠ HTTP_OK then
    ([], .error ⟨.protocolKind,
      "Failed retrieving POWER data, server returned HTTP code: " ++ decStr resp.status_code ++
        " on following URL " ++ resp.url ++ "."⟩)
  else
    match dispositionName resp.content_disposition with
    | .error e => ([DecodeEvent.readContentDisposition], .error e)
    | .ok name =>
      if fileFormat = "netcdf" then
        ([DecodeEvent.readContentDisposition, DecodeEvent.parseBody "netcdf",
          DecodeEvent.writeFile (path_join path name) (WritePayload.dataset resp.body)],
          .ok (Decoded.grid resp.body))
      else if fileFormat = "csv" ∨ fileFormat = "ascii" then
        match splitOnList "-END HEADER-".data resp.body.data with
        | [header, rest] =>
          let data_lines := splitOnChar '\n' (trimChars rest)
          match read_csv (joinChar '\n' data_lines) with
          | .error e =>
            ([DecodeEvent.readContentDisposition, DecodeEvent.parseBody fileFormat], .error e)
          | .ok data =>
            if to_file then
              let txt_name := String.mk ((splitOnChar '.' name.data).headD []) ++ "_variables.txt"
              ([DecodeEvent.readContentDisposition, DecodeEvent.parseBody fileFormat,
                DecodeEvent.writeFile (path_join path txt_name) (WritePayload.text (String.mk header)),
                DecodeEvent.writeFile (path_join path name)
                  (WritePayload.tableCsv data (if fileFormat = "ascii" then '\t' else ','))],
                .ok (Decoded.table data))
            else
              ([DecodeEvent.readContentDisposition, DecodeEvent.parseBody fileFormat],
                .ok (Decoded.table data))
        | _ =>
          ([DecodeEvent.readContentDisposition, DecodeEvent.parseBody fileFormat],
            .error ⟨.valueKind, "not enough values to unpack"⟩)
      else
        ([DecodeEvent.readContentDisposition,
          DecodeEvent.writeFile (path_join path name) (WritePayload.text resp.body),
          DecodeEvent.parseBody "json"],
          .ok (Decoded.mapping resp.body))

/-- Outcome of one query_power call: whether the network fetch was reached,
the recorded decode events, and the returned or raised result. -/
structure RunOut where
  fetchCalled : Bool
  events : List DecodeEvent
  result : Except Err Decoded

/-- The whole of query_power: validation and request building, then a single
fetch whose response is the resp argument (the transport collaborator),
then decoding. -/
def query_power (geometry : GeomArg) (start stop : DateArg) (to_file : Bool) (path : String)
    (community : String) (parameters : List String)
    (temporal_api spatial_api fileFormat : String) (resp : RawResponse) : RunOut :=
  match validateBuild geometry start stop community parameters temporal_api spatial_api
      fileFormat with
  | .error e => ⟨false, [], .error e⟩
  | .ok _ =>
    let d := decode resp fileFormat to_file path
    ⟨true, d.1, d.2⟩

/-- One row of the POWER daily table as the Angstrom estimator reads it: the
two radiation columns, a cell being none when missing (NaN). -/
structure RadRow where
  ALLSKY_SFC_SW_DWN : Option ℚ
  ALLSKY_TOA_SW_DWN : Option ℚ
deriving DecidableEq

/-- Elementwise ALLSKY_SFC_SW_DWN / ALLSKY_TOA_SW_DWN of pyNASAPower.py line
145. A missing operand gives a missing quotient; a zero denominator
(float inf or nan, not representable in ℚ) is likewise modelled missing. -/
def RadRow.rel (r : RadRow) : Option ℚ :=
  match r.ALLSKY_SFC_SW_DWN, r.ALLSKY_TOA_SW_DWN with
  | some s, some t => if t = 0 then none else some (s / t)
  | _, _ => none

/-- The value numpy.percentile computes on a nonempty array with its default
linear interpolation, for a whole-number percentile q (the source uses 5
and 98): with the data sorted ascending, the rank is q(n-1)/100 and the
value is interpolated between the neighbouring order statistics. -/
def percentileVal (xs : List ℚ) (q : Nat) : ℚ :=
  let s := xs.mergeSort fun a b => decide (a ≤ b)
  let k := q * (s.length - 1)
  let lo := s.getD (k / 100) 0
  let hi := s.getD (k / 100 + 1) lo
  lo + (((k % 100 : Nat) : ℚ) / 100) * (hi - lo)

/-- numpy.percentile: on an empty array it raises (IndexError, cannot do a
non-empty take from an empty axes); otherwise it returns the interpolated
order statistic. -/
def percentile (xs : List ℚ) (q : Nat) : Except Err ℚ :=
  if xs = [] then
    .error ⟨.indexKind, "cannot do a non-empty take from an empty axes."⟩
  else .ok (percentileVal xs q)

/-- helpingFunctions.check_angstromAB (helping_functions.py lines 7-39). -/
def check_angstromAB (xA xB : ℚ) : Except Err (ℚ × ℚ) :=
  let A := |xA|
  let B := |xB|
  let SUM_AB := A + B
  if A < 1/10 ∨ A > 4/10 then .error ⟨.valueKind, "Out of range Angstrom A value!"⟩
  else if B < 3/10 ∨ B > 7/10 then .error ⟨.valueKind, "Out of range Angstrom B value!"⟩
  else if SUM_AB < 6/10 ∨ SUM_AB > 9/10 then
    .error ⟨.valueKind, "Out of range summary of Angstrom A and B values!"⟩
  else .ok (A, B)

/-- NASAPowerMeteorologicalData._estimate_AngstAB (pyNASAPower.py lines
120-162): under 200 rows, the default pair; otherwise the 5th and 98th
percentiles of the defined radiation quotients, falling back to the
default pair when check_angstromAB raises. The np.percentile calls of
lines 147-148 sit outside the try/except, so with no defined quotient
their error propagates to the caller uncaught. -/
def estimate_AngstAB (df_power : List RadRow) (angstA angstB : ℚ) : Except Err (ℚ × ℚ) :=
  if df_power.length < 200 then .ok (angstA, angstB)
  else
    let relative_rad := df_power.map RadRow.rel
    let vals := relative_rad.filterMap id
    match percentile vals 5 with
    | .error e => .error e
    | .ok angstrom_a =>
      match percentile vals 98 with
      | .error e => .error e
      | .ok angstrom_ab =>
        let angstrom_b := angstrom_ab - angstrom_a
        match check_angstromAB angstrom_a angstrom_b with
        | .ok _ => .ok (angstrom_a, angstrom_b)
        | .error _ => .ok (angstA, angstB)

/-- pyNASAPower.py lines 43-44: variable names in POWER data. -/
def power_variables : List String :=
  ["ALLSKY_TOA_SW_DWN", "ALLSKY_SFC_SW_DWN", "T2M", "T2M_MIN", "T2M_MAX", "T2MDEW", "WS2M",
    "PRECTOT"]

/-- The parsed JSON payload of the legacy single-point endpoint as
_process_POWER_records reads it: the fill value and, per variable name,
the daily series, all series indexed by the same n date keys. -/
structure PowerData where
  fillValue : ℚ
  series : String → List ℚ

/-- pyNASAPower.py line 223: mask the fill value to missing. -/
def maskFill (fill : ℚ) (xs : List ℚ) : List (Option ℚ) :=
  xs.map fun x => if x = fill then none else some x

/-- Row i of the assembled DataFrame (a cell beyond the end of its series is
missing, as pandas index alignment makes it). -/
def powerRow (pd : PowerData) (i : Nat) : List (Option ℚ) :=
  power_variables.map fun varname => (maskFill pd.fillValue (pd.series varname)).getD i none

/-- NASAPowerMeteorologicalData._process_POWER_records (pyNASAPower.py lines
207-232): mask fill values, then keep only the rows without any missing
value. -/
def process_POWER_records (pd : PowerData) (n : Nat) : List (List (Option ℚ)) :=
  ((List.range n).map (powerRow pd)).filter fun row => !row.any Option.isNone

/-- Column selection feeding the estimator: indices 0 and 1 of
power_variables are the TOA and SFC radiation columns. -/
def toRadRow (row : List (Option ℚ)) : RadRow :=
  ⟨row.getD 1 none, row.getD 0 none⟩

/-- The slice of _get_and_process_NASAPower that hands the processed records
to the Angstrom estimator (pyNASAPower.py lines 110-113). -/
def get_and_process_Angst (pd : PowerData) (n : Nat) (angstA angstB : ℚ) :
    Except Err (ℚ × ℚ) :=
  estimate_AngstAB ((process_POWER_records pd n).map toRadRow) angstA angstB

/-- Modelled from the spec: the descriptor fields recovered by re-parsing a
produced query mapping (spec section 8, round-trip; the repository itself
has no parser of its wire queries). -/
structure ParsedQuery where
  temporal_api : String
  spatial_api : String
  community : String
  parameters : List String
  date_start : PyDate
  date_end : PyDate
  fileFormat : String
  geometry : GeomRow
deriving DecidableEq

/-- All endpoint path combinations. -/
def endpoints : List (String × String) :=
  available_temporal.flatMap fun t => available_spatial.map fun s => (t, s)

/-- Modelled from the spec: read temporal resolution and spatial mode back
from the endpoint URL path. -/
def parseEndpoint (url : String) : Option (String × String) :=
  endpoints.find? fun p => serverUrl p.1 p.2 == url

/-- Value of a little-endian decimal digit list. -/
def decodeDigitsRev : List Nat → Nat
  | [] => 0
  | d :: ds => d + 10 * decodeDigitsRev ds

/-- Decimal value of a digit string. -/
def parseNatChars (cs : List Char) : Nat :=
  decodeDigitsRev ((cs.map fun c => c.toNat - 48).reverse)

/-- Modelled from the spec: read a YYYYMMDD date string back (the last two
characters are the day, the previous two the month, the rest the year). -/
def parseYMD (s : String) : Option PyDate :=
  match s.data.reverse with
  | d2 :: d1 :: m2 :: m1 :: c :: rest =>
    some ⟨parseNatChars (c :: rest).reverse, parseNatChars [m1, m2], parseNatChars [d1, d2]⟩
  | _ => none

/-- Modelled from the spec: read a year-only YYYY date string back, as
January 1 of that year (datetime.strptime with %Y does the same). -/
def parseY (s : String) : Option PyDate :=
  if s.data = [] then none else some ⟨parseNatChars s.data, 1, 1⟩

/-- Lookup in the flat query mapping. -/
def lookupKey (coords : List (String × ℚ)) (k : String) : Option ℚ :=
  (coords.find? fun p => p.1 == k).map Prod.snd

/-- Modelled from the spec: rebuild the geometry from the flattened keys. -/
def parseGeom (spatial_api : String) (coords : List (String × ℚ)) : Option GeomRow :=
  if spatial_api = "point" then
    match lookupKey coords "latitude", lookupKey coords "longitude" with
    | some la, some lo => some (GeomRow.point lo la)
    | _, _ => none
  else
    match lookupKey coords "latitude-min", lookupKey coords "latitude-max",
        lookupKey coords "longitude-min", lookupKey coords "longitude-max" with
    | some lamin, some lamax, some lomin, some lomax =>
      some (GeomRow.polygon lomin lamin lomax lamax)
    | _, _, _, _ => none

/-- Modelled from the spec: a date string is read back at the granularity the
endpoint uses (year-only for monthly and climatology). -/
def parseDateField (temporal_api s : String) : Option PyDate :=
  if temporal_api = "monthly" ∨ temporal_api = "climatology" then parseY s else parseYMD s

/-- Modelled from the spec: re-parse a produced wire query into descriptor
fields. -/
def parseWire (url : String) (w : WireParams) : Option ParsedQuery :=
  match parseEndpoint url with
  | none => none
  | some (t, sp) =>
    match parseDateField t w.start, parseDateField t w.stop, parseGeom sp w.coords with
    | some d1, some d2, some g =>
      some ⟨t, sp, w.community, (splitOnChar ',' w.parameters.data).map String.mk, d1, d2,
        w.fileFormat, g⟩
    | _, _, _ => none

/-- Build a request, then re-parse the produced query mapping. -/
def reparse (geometry : GeomArg) (start stop : DateArg) (community : String)
    (parameters : List String) (temporal_api spatial_api fileFormat : String) :
    Option ParsedQuery :=
  match validateBuild geometry start stop community parameters temporal_api spatial_api
      fileFormat with
  | .ok (url, w) => parseWire url w
  | .error _ => none

/-! ### Helper lemmas -/

theorem splitOnChar_of_not_mem {sep : Char} {cs : List Char} (h : sep ∉ cs) :
    splitOnChar sep cs = [cs] := by
  induction cs with
  | nil => rfl
  | cons c cs ih =>
    have hc : ¬c = sep := by rintro rfl; exact h (List.mem_cons_self _ _)
    have hm : sep ∉ cs := fun m => h (List.mem_cons_of_mem c m)
    simp [splitOnChar, hc, ih hm]

theorem splitOnChar_append {sep : Char} {xs ys : List Char} (h : sep ∉ xs) :
    splitOnChar sep (xs ++ sep :: ys) = xs :: splitOnChar sep ys := by
  induction xs with
  | nil => simp [splitOnChar]
  | cons c xs ih =>
    have hc : ¬c = sep := by rintro rfl; exact h (List.mem_cons_self _ _)
    have hm : sep ∉ xs := fun m => h (List.mem_cons_of_mem c m)
    simp [splitOnChar, hc, ih hm]

theorem splitOnChar_joinChar {sep : Char} {L : List (List Char)} (hne : L ≠ [])
    (h : ∀ x ∈ L, sep ∉ x) : splitOnChar sep (joinChar sep L) = L := by
  induction L with
  | nil => exact absurd rfl hne
  | cons x L ih =>
    cases L with
    | nil => exact splitOnChar_of_not_mem (h x (by simp))
    | cons y L2 =>
      have hj : joinChar sep (x :: y :: L2) = x ++ sep :: joinChar sep (y :: L2) := rfl
      rw [hj, splitOnChar_append (h x (by simp)),
        ih (by simp) (fun z hz => h z (List.mem_cons_of_mem x hz))]

theorem decodeDigitsRev_digitsRevFuel : ∀ fuel n, n ≤ fuel →
    decodeDigitsRev (digitsRevFuel fuel n) = n := by
  intro fuel
  induction fuel with
  | zero =>
    intro n h
    have hn : n = 0 := Nat.le_zero.mp h
    subst hn
    rfl
  | succ fuel ih =>
    intro n h
    match n with
    | 0 => rfl
    | m + 1 =>
      have hdiv : (m + 1) / 10 ≤ fuel := by
        have := Nat.div_lt_self (Nat.succ_pos m) (by norm_num : 1 < 10)
        omega
      have heq : digitsRevFuel (fuel + 1) (m + 1) =
          (m + 1) % 10 :: digitsRevFuel fuel ((m + 1) / 10) := rfl
      rw [heq, decodeDigitsRev, ih _ hdiv]
      omega

theorem digitsRevFuel_lt_ten : ∀ fuel n, ∀ d ∈ digitsRevFuel fuel n, d < 10 := by
  intro fuel
  induction fuel with
  | zero => intro n d hd; simp [digitsRevFuel] at hd
  | succ fuel ih =>
    intro n d hd
    match n with
    | 0 => simp [digitsRevFuel] at hd
    | m + 1 =>
      have heq : digitsRevFuel (fuel + 1) (m + 1) =
          (m + 1) % 10 :: digitsRevFuel fuel ((m + 1) / 10) := rfl
      rw [heq] at hd
      rcases List.mem_cons.mp hd with h | h
      · subst h; exact Nat.mod_lt _ (by norm_num)
      · exact ih _ d h

theorem charToDigit_digitChar {d : Nat} (h : d < 10) : (digitChar d).toNat - 48 = d := by
  interval_cases d <;> decide

theorem decChars_ne_nil (n : Nat) : decChars n ≠ [] := by
  by_cases h : n = 0
  · subst h; decide
  · unfold decChars
    rw [if_neg h]
    match n, h with
    | m + 1, _ => simp [digitsRevFuel]

theorem parseNatChars_decChars (n : Nat) : parseNatChars (decChars n) = n := by
  by_cases h : n = 0
  · subst h; decide
  · unfold decChars parseNatChars
    rw [if_neg h, List.map_reverse, List.reverse_reverse, List.map_map]
    have hmap : (digitsRevFuel n n).map ((fun c => c.toNat - 48) ∘ digitChar) =
        (digitsRevFuel n n).map id := by
      apply List.map_congr_left
      intro d hd
      exact charToDigit_digitChar (digitsRevFuel_lt_ten n n d hd)
    rw [hmap, List.map_id]
    exact decodeDigitsRev_digitsRevFuel n n le_rfl

theorem parseNatChars_pad2 {n : Nat} (h : n < 100) : parseNatChars (pad2 n) = n := by
  have h1 : n / 10 < 10 := by omega
  have h2 : n % 10 < 10 := Nat.mod_lt _ (by norm_num)
  unfold pad2 parseNatChars
  simp only [List.map_cons, List.map_nil, List.reverse_cons, List.reverse_nil, List.nil_append,
    List.cons_append, decodeDigitsRev, charToDigit_digitChar h1, charToDigit_digitChar h2]
  omega

theorem parseY_fmtY (d : PyDate) : parseY (fmtY d) = some ⟨d.year, 1, 1⟩ := by
  unfold parseY fmtY
  rw [if_neg (by exact decChars_ne_nil d.year)]
  rw [show (String.mk (decChars d.year)).data = decChars d.year from rfl,
    parseNatChars_decChars]

theorem parseYMD_fmtYMD {d : PyDate} (hm : d.month < 100) (hd : d.day < 100) :
    parseYMD (fmtYMD d) = some d := by
  obtain ⟨c, rest, hcr⟩ : ∃ c rest, (decChars d.year).reverse = c :: rest := by
    cases hY : (decChars d.year).reverse with
    | nil => exact absurd (List.reverse_eq_nil_iff.mp hY) (decChars_ne_nil d.year)
    | cons c rest => exact ⟨c, rest, rfl⟩
  have hdata : (fmtYMD d).data.reverse =
      digitChar (d.day % 10) :: digitChar (d.day / 10) :: digitChar (d.month % 10) ::
        digitChar (d.month / 10) :: c :: rest := by
    show (decChars d.year ++ pad2 d.month ++ pad2 d.day).reverse = _
    rw [List.reverse_append, List.reverse_append, hcr]
    rfl
  unfold parseYMD
  rw [hdata]
  have hyear : parseNatChars (c :: rest).reverse = d.year := by
    rw [← hcr, List.reverse_reverse, parseNatChars_decChars]
  have hmon : parseNatChars [digitChar (d.month / 10), digitChar (d.month % 10)] = d.month :=
    parseNatChars_pad2 hm
  have hday : parseNatChars [digitChar (d.day / 10), digitChar (d.day % 10)] = d.day :=
    parseNatChars_pad2 hd
  simp only [hyear, hmon, hday]

theorem split_commaJoin {l : List String} (hne : l ≠ []) (h : ∀ p ∈ l, ',' ∉ p.data) :
    (splitOnChar ',' (commaJoin l).data).map String.mk = l := by
  have hd : (commaJoin l).data = joinChar ',' (l.map String.data) := rfl
  rw [hd, splitOnChar_joinChar (by simpa using hne)
    (by
      intro x hx
      obtain ⟨p, hp, rfl⟩ := List.mem_map.mp hx
      exact h p hp)]
  rw [List.map_map]
  have hid : (String.mk ∘ String.data) = id := funext fun s => rfl
  rw [hid, List.map_id]

theorem parseEndpoint_serverUrl {t s : String} (ht : t ∈ available_temporal)
    (hs : s ∈ available_spatial) : parseEndpoint (serverUrl t s) = some (t, s) := by
  fin_cases ht <;> fin_cases hs <;> decide

theorem parseGeom_point (x y : ℚ) :
    parseGeom "point" [("latitude", y), ("longitude", x)] = some (GeomRow.point x y) := by
  rfl

theorem parseGeom_polygon (minx miny maxx maxy : ℚ) :
    parseGeom "regional" [("latitude-min", miny), ("latitude-max", maxy),
      ("longitude-min", minx), ("longitude-max", maxx)] =
      some (GeomRow.polygon minx miny maxx maxy) := by
  rfl

theorem validateBuild_ok {row : GeomRow} {coords : List (String × ℚ)} {d1 d2 : PyDate}
    {community : String} {parameters : List String} {t s f : String}
    (ht : t ∈ available_temporal) (hc : community ∈ available_communities)
    (hs : s ∈ available_spatial) (hf : f ∈ available_formats)
    (hcompat : ¬(t = "hourly" ∧ s ≠ "point"))
    (hl15 : t = "hourly" → (effParams parameters).length ≤ 15)
    (hl20 : (effParams parameters).length ≤ 20)
    (hpt : s = "point" → row.isPointRow = true)
    (hpg : s = "regional" → row.isPolygonRow = true)
    (hco : coordsOf row = .ok coords)
    (hdate : PyDate.ltb d2 d1 = false)
    (hclim : t = "climatology" → (d2.year : ℤ) - (d1.year : ℤ) ≥ 2) :
    validateBuild (.gdf [row]) (.date d1) (.date d2) community parameters t s f =
      .ok (serverUrl t s,
        ⟨commaJoin (effParams parameters), community,
          (if t ∈ (["monthly", "climatology"] : List String) then fmtY d1 else fmtYMD d1),
          (if t ∈ (["monthly", "climatology"] : List String) then fmtY d2 else fmtYMD d2),
          f, coords⟩) := by
  have hshape : ¬(¬row.isPointRow = true ∧ ¬row.isPolygonRow = true) := by
    have hs2 : s = "point" ∨ s = "regional" := by simpa [available_spatial] using hs
    rcases hs2 with h2 | h2
    · exact fun hcn => hcn.1 (hpt h2)
    · exact fun hcn => hcn.2 (hpg h2)
  have hps : ¬(¬row.isPointRow = true ∧ s = "point") := by
    rintro ⟨hnp, rfl⟩
    exact hnp (hpt rfl)
  have hgs : ¬(¬row.isPolygonRow = true ∧ s = "regional") := by
    rintro ⟨hnp, rfl⟩
    exact hnp (hpg rfl)
  have h15 : ¬(t = "hourly" ∧ (effParams parameters).length > 15) := by
    rintro ⟨he, hgt⟩
    have := hl15 he
    omega
  have h20d : ¬(t = "daily" ∧ (effParams parameters).length > 20) := by
    rintro ⟨_, hgt⟩
    omega
  have h20m : ¬(t = "monthly" ∧ (effParams parameters).length > 20) := by
    rintro ⟨_, hgt⟩
    omega
  have h20c : ¬(t = "climatology" ∧ (effParams parameters).length > 20) := by
    rintro ⟨_, hgt⟩
    omega
  have hltb : ¬(PyDate.ltb d2 d1 = true) := by simp [hdate]
  have hclim2 : ¬(t = "climatology" ∧ (d2.year : ℤ) - (d1.year : ℤ) < 2) := by
    rintro ⟨he, hlt⟩
    have := hclim he
    omega
  unfold validateBuild
  rw [if_neg (not_not_intro ht), if_neg (not_not_intro hc), if_neg (not_not_intro hs),
    if_neg (not_not_intro hf), if_neg hcompat, if_neg h15, if_neg h20d, if_neg h20m,
    if_neg h20c]
  simp only [List.length_cons, List.length_nil, gt_iff_lt, Nat.lt_irrefl, if_false]
  rw [if_neg hshape, if_neg hps, if_neg hgs]
  simp only [hco]
  rw [if_neg hltb]
  by_cases hm : t ∈ (["monthly", "climatology"] : List String)
  · rw [if_pos hm, if_neg hclim2]
    simp only [if_pos hm]
  · rw [if_neg hm]
    simp only [if_neg hm]

/-! ### Claim theorems -/

/-- C1: the claim says netcdf and json results are written to disk only when
persistence is requested (to_file true); the decoder contradicts it. With
to_file = false and a 200 response, the json branch still emits a verbatim
file write and the netcdf branch still emits a dataset write, exactly as
get_data.py lines 162-164 and 184-187 do unconditionally. -/
theorem C1_write_despite_no_persistence :
    (decode ⟨200, "attachment; filename=POWER.json", "https://u", "x"⟩ "json" false "./data").1 =
      [DecodeEvent.readContentDisposition,
        DecodeEvent.writeFile "./data/POWER.json" (WritePayload.text "x"),
        DecodeEvent.parseBody "json"] ∧
    (decode ⟨200, "attachment; filename=POWER.nc", "https://u", "nc"⟩ "netcdf" false "./data").1 =
      [DecodeEvent.readContentDisposition, DecodeEvent.parseBody "netcdf",
        DecodeEvent.writeFile "./data/POWER.nc" (WritePayload.dataset "nc")] := by
  constructor <;> decide

/-- C8: with fewer than 200 rows the Angstrom estimator returns the default
pair unchanged, whatever the table contents — in particular without
raising, since pyNASAPower.py lines 140-142 return before any data
access. -/
theorem C8_estimator_passthrough_below_200 (df_power : List RadRow) (angstA angstB : ℚ)
    (h : df_power.length < 200) :
    estimate_AngstAB df_power angstA angstB = .ok (angstA, angstB) := by
  unfold estimate_AngstAB
  rw [if_pos h]

theorem C8_witness :
    estimate_AngstAB [] (29/100) (49/100) = .ok (29/100, 49/100) :=
  C8_estimator_passthrough_below_200 [] (29/100) (49/100) (by decide)

/-- C9: on a csv body consisting of a header segment, the sentinel line and
tabular data, the decoder splits on the sentinel, takes the first data
line as the column header row and yields a two-column (A, B) table with
exactly two data rows. -/
theorem C9_csv_decode_sentinel :
    (decode ⟨200, "attachment; filename=POWER.csv", "https://u",
        "header text\n-END HEADER-\nA,B\n1,2\n3,4"⟩ "csv" false "./").2 =
      .ok (Decoded.table ⟨["A", "B"], [["1", "2"], ["3", "4"]]⟩) := by
  decide

/-- C2 (counterexample): the claim asserts a re-parsed query mapping recovers
date_start for every temporal resolution. For a monthly request built from
date_start 2020-05-15 the wire start field is the year-only string 2020,
which re-parses as 2020-01-01, not 2020-05-15. -/
theorem C2_counterexample_monthly_dates :
    (reparse (.gdf [GeomRow.point 23 37]) (.date ⟨2020, 5, 15⟩) (.date ⟨2022, 1, 1⟩) "ag"
        ["T2M"] "monthly" "point" "csv").map (fun p => p.date_start) = some ⟨2020, 1, 1⟩ ∧
    (⟨2020, 1, 1⟩ : PyDate) ≠ ⟨2020, 5, 15⟩ := by
  constructor <;> decide

/-- C3 (counterexample): the claim asserts the only error detected after the
fetch completes is ProtocolKind. On a 200 response whose csv body lacks
the sentinel, the fetch is reached and the decoder then raises the unpack
ValueError of get_data.py line 168 — a ValueKind error after the call. -/
theorem C3_counterexample_post_fetch_valuekind :
    (query_power (.gdf [GeomRow.point 23 37]) (.date ⟨2022, 1, 1⟩) (.date ⟨2022, 2, 1⟩) false
        "./" "ag" ["T2M"] "daily" "point" "csv"
        ⟨200, "attachment; filename=P.csv", "https://u", "no sentinel here"⟩).fetchCalled = true ∧
    (query_power (.gdf [GeomRow.point 23 37]) (.date ⟨2022, 1, 1⟩) (.date ⟨2022, 2, 1⟩) false
        "./" "ag" ["T2M"] "daily" "point" "csv"
        ⟨200, "attachment; filename=P.csv", "https://u", "no sentinel here"⟩).result =
      .error ⟨.valueKind, "not enough values to unpack"⟩ := by
  constructor <;> decide

/-- C4: on any non-200 status the decoder performs no step at all (no
content-disposition read, no body parse, no write) and raises ProtocolKind
with a message that contains the offending status code and the request
URL; the two existential conjuncts exhibit the containments. -/
theorem C4_non200_protocol (resp : RawResponse) (fileFormat path : String) (to_file : Bool)
    (h : resp.status_code ≠ 200) :
    decode resp fileFormat to_file path =
      ([], .error ⟨.protocolKind,
        "Failed retrieving POWER data, server returned HTTP code: " ++ decStr resp.status_code ++
          " on following URL " ++ resp.url ++ "."⟩) ∧
    (∃ pre post,
      ("Failed retrieving POWER data, server returned HTTP code: " ++ decStr resp.status_code ++
          " on following URL " ++ resp.url ++ "." : String) =
        pre ++ decStr resp.status_code ++ post) ∧
    (∃ pre post,
      ("Failed retrieving POWER data, server returned HTTP code: " ++ decStr resp.status_code ++
          " on following URL " ++ resp.url ++ "." : String) = pre ++ resp.url ++ post) := by
  refine ⟨?_, ?_, ?_⟩
  · unfold decode
    rw [if_pos (by simpa [HTTP_OK] using h)]
  · exact ⟨"Failed retrieving POWER data, server returned HTTP code: ",
      " on following URL " ++ resp.url ++ ".", by simp [String.append_assoc]⟩
  · exact ⟨"Failed retrieving POWER data, server returned HTTP code: " ++
      decStr resp.status_code ++ " on following URL ", ".", by simp [String.append_assoc]⟩

theorem C4_witness :
    decode ⟨404, "attachment; filename=POWER.csv", "https://example", "body"⟩ "csv" true "./" =
      ([], .error ⟨.protocolKind,
        "Failed retrieving POWER data, server returned HTTP code: " ++ decStr 404 ++
          " on following URL " ++ "https://example" ++ "."⟩) ∧
    (∃ pre post,
      ("Failed retrieving POWER data, server returned HTTP code: " ++ decStr 404 ++
          " on following URL " ++ "https://example" ++ "." : String) =
        pre ++ decStr 404 ++ post) ∧
    (∃ pre post,
      ("Failed retrieving POWER data, server returned HTTP code: " ++ decStr 404 ++
          " on following URL " ++ "https://example" ++ "." : String) =
        pre ++ "https://example" ++ post) :=
  C4_non200_protocol ⟨404, "attachment; filename=POWER.csv", "https://example", "body"⟩
    "csv" "./" true (by decide)

/-- C5: over otherwise-valid inputs, the pair (hourly, regional) always fails
with ValueKind at the compatibility check of get_data.py lines 58-59,
while every other (temporal_resolution, spatial_mode) pair drawn from the
allowed sets passes the check and request building succeeds. -/
theorem C5_hourly_regional_compat {t s : String} (ht : t ∈ available_temporal)
    (hs : s ∈ available_spatial) {community f : String} {parameters : List String}
    {row : GeomRow} {coords : List (String × ℚ)} {d1 d2 : PyDate}
    (hc : community ∈ available_communities) (hf : f ∈ available_formats)
    (hl : (effParams parameters).length ≤ 15)
    (hpt : s = "point" → row.isPointRow = true)
    (hpg : s = "regional" → row.isPolygonRow = true)
    (hco : coordsOf row = .ok coords)
    (hdate : PyDate.ltb d2 d1 = false)
    (hclim : (d2.year : ℤ) - (d1.year : ℤ) ≥ 2) :
    (t = "hourly" ∧ s = "regional" →
        validateBuild (.gdf [row]) (.date d1) (.date d2) community parameters t s f =
          .error ⟨.valueKind, "For temporal_resolution = hourly spatial_api can only be point!"⟩) ∧
    (¬(t = "hourly" ∧ s = "regional") →
        (validateBuild (.gdf [row]) (.date d1) (.date d2) community parameters t s f).isOk =
          true) := by
  constructor
  · rintro ⟨rfl, rfl⟩
    unfold validateBuild
    rw [if_neg (not_not_intro ht), if_neg (not_not_intro hc), if_neg (not_not_intro hs),
      if_neg (not_not_intro hf), if_pos ⟨rfl, by decide⟩]
  · intro hnot
    have hcompat : ¬(t = "hourly" ∧ s ≠ "point") := by
      rintro ⟨rfl, hsp⟩
      have hs2 : s = "point" ∨ s = "regional" := by simpa [available_spatial] using hs
      rcases hs2 with rfl | rfl
      · exact hsp rfl
      · exact hnot ⟨rfl, rfl⟩
    rw [validateBuild_ok ht hc hs hf hcompat (fun _ => hl) (le_trans hl (by norm_num)) hpt hpg
      hco hdate (fun _ => hclim)]
    rfl

theorem C5_witness :
    (validateBuild (.gdf [GeomRow.point 23 37]) (.date ⟨2022, 1, 1⟩) (.date ⟨2024, 2, 1⟩) "ag"
        ["T2M"] "daily" "point" "csv").isOk = true :=
  (C5_hourly_regional_compat (by decide) (by decide) (by decide) (by decide) (by decide)
    (by decide) (by decide) (by rfl) (by decide) (by decide)).2 (by decide)

/-- C6: a variable list longer than the resolution ceiling (15 for hourly, 20
for daily, monthly and climatology) always fails with ValueKind — whatever
the remaining arguments, since the count checks of get_data.py lines 64-74
precede the geometry and date checks — while a list of exactly the ceiling
passes the count check and otherwise-valid requests build successfully. -/
theorem C6_variable_count_ceilings {t : String} (ht : t ∈ available_temporal)
    {community s f : String} {parameters : List String}
    (hc : community ∈ available_communities) (hs : s ∈ available_spatial)
    (hf : f ∈ available_formats) (hcompat : ¬(t = "hourly" ∧ s ≠ "point")) :
    (∀ geometry start stop, parameters.length > ceilingOf t →
        errKind (validateBuild geometry start stop community parameters t s f) =
          some .valueKind) ∧
    (∀ (row : GeomRow) (coords : List (String × ℚ)) (d1 d2 : PyDate),
        parameters.length = ceilingOf t →
        (s = "point" → row.isPointRow = true) → (s = "regional" → row.isPolygonRow = true) →
        coordsOf row = .ok coords → PyDate.ltb d2 d1 = false →
        (t = "climatology" → (d2.year : ℤ) - (d1.year : ℤ) ≥ 2) →
        (validateBuild (.gdf [row]) (.date d1) (.date d2) community parameters t s f).isOk =
          true) := by
  have hceil15 : 15 ≤ ceilingOf t := by
    unfold ceilingOf
    split_ifs <;> norm_num
  constructor
  · intro geometry start stop hlen
    have hne : parameters ≠ [] := by
      intro h
      subst h
      simp only [List.length_nil] at hlen
      omega
    have heff : effParams parameters = parameters := by simp [effParams, hne]
    unfold validateBuild
    rw [if_neg (not_not_intro ht), if_neg (not_not_intro hc), if_neg (not_not_intro hs),
      if_neg (not_not_intro hf), if_neg hcompat]
    rcases (show t = "hourly" ∨ t = "daily" ∨ t = "monthly" ∨ t = "climatology" by
      simpa [available_temporal] using ht) with rfl | rfl | rfl | rfl
    · rw [if_pos ⟨rfl, by rw [heff]; simpa [ceilingOf] using hlen⟩]
      rfl
    · rw [if_neg (fun hx => absurd hx.1 (by decide)),
        if_pos ⟨rfl, by rw [heff]; simpa [ceilingOf] using hlen⟩]
      rfl
    · rw [if_neg (fun hx => absurd hx.1 (by decide)),
        if_neg (fun hx => absurd hx.1 (by decide)),
        if_pos ⟨rfl, by rw [heff]; simpa [ceilingOf] using hlen⟩]
      rfl
    · rw [if_neg (fun hx => absurd hx.1 (by decide)),
        if_neg (fun hx => absurd hx.1 (by decide)),
        if_neg (fun hx => absurd hx.1 (by decide)),
        if_pos ⟨rfl, by rw [heff]; simpa [ceilingOf] using hlen⟩]
      rfl
  · intro row coords d1 d2 hlen hpt hpg hco hdate hclim
    have hne : parameters ≠ [] := by
      intro h
      subst h
      simp only [List.length_nil] at hlen
      omega
    have heff : effParams parameters = parameters := by simp [effParams, hne]
    have h15 : t = "hourly" → (effParams parameters).length ≤ 15 := by
      intro he
      rw [heff, hlen, he]
      simp [ceilingOf]
    have h20 : (effParams parameters).length ≤ 20 := by
      rw [heff, hlen]
      unfold ceilingOf
      split_ifs <;> norm_num
    rw [validateBuild_ok ht hc hs hf hcompat h15 h20 hpt hpg hco hdate hclim]
    rfl

theorem C6_witness :
    errKind (validateBuild .notGdf .notDate .notDate "ag"
        ["a", "b", "c", "d", "e", "f", "g", "h", "i", "j", "k", "l", "m", "n", "o", "p", "q",
          "r", "s", "t", "u"] "daily" "point" "csv") = some .valueKind :=
  (C6_variable_count_ceilings (by decide) (by decide) (by decide) (by decide)
    (by decide)).1 .notGdf .notDate .notDate (by decide)

theorem parseGeom_coordsOf {row : GeomRow} {coords : List (String × ℚ)} {s : String}
    (hs : s ∈ available_spatial)
    (hpt : s = "point" → row.isPointRow = true)
    (hpg : s = "regional" → row.isPolygonRow = true)
    (hco : coordsOf row = .ok coords) :
    parseGeom s coords = some row := by
  have hs2 : s = "point" ∨ s = "regional" := by simpa [available_spatial] using hs
  rcases hs2 with rfl | rfl
  · have hp := hpt rfl
    cases row with
    | point x y =>
      have hc2 : coords = [("latitude", y), ("longitude", x)] :=
        (Except.ok.inj hco).symm
      rw [hc2]
      exact parseGeom_point x y
    | polygon a b c d => simp [GeomRow.isPointRow] at hp
    | other => simp [GeomRow.isPointRow] at hp
  · have hp := hpg rfl
    cases row with
    | point x y => simp [GeomRow.isPolygonRow] at hp
    | polygon minx miny maxx maxy =>
      simp only [coordsOf] at hco
      split_ifs at hco
      have hc2 : coords = [("latitude-min", miny), ("latitude-max", maxy),
          ("longitude-min", minx), ("longitude-max", maxx)] :=
        (Except.ok.inj hco).symm
      rw [hc2]
      exact parseGeom_polygon minx miny maxx maxy
    | other => simp [GeomRow.isPolygonRow] at hp

/-- C2 (amended): for every input satisfying the validator invariants, with
variable codes free of commas, re-parsing the produced query mapping
recovers the temporal resolution, spatial mode, community, ordered
variable list, output format and geometry exactly, and recovers the dates
exactly for hourly and daily requests; for monthly and climatology the
wire carries year-only dates, so only the year is recovered (the date
reads back as January 1 of that year). -/
theorem C2_roundtrip_amended {row : GeomRow} {coords : List (String × ℚ)} {d1 d2 : PyDate}
    {community : String} {parameters : List String} {t s f : String}
    (ht : t ∈ available_temporal) (hc : community ∈ available_communities)
    (hs : s ∈ available_spatial) (hf : f ∈ available_formats)
    (hcompat : ¬(t = "hourly" ∧ s ≠ "point"))
    (hl15 : t = "hourly" → parameters.length ≤ 15)
    (hl20 : parameters.length ≤ 20)
    (hpt : s = "point" → row.isPointRow = true)
    (hpg : s = "regional" → row.isPolygonRow = true)
    (hco : coordsOf row = .ok coords)
    (hdate : PyDate.ltb d2 d1 = false)
    (hclim : t = "climatology" → (d2.year : ℤ) - (d1.year : ℤ) ≥ 2)
    (hne : parameters ≠ []) (hcf : ∀ p ∈ parameters, ',' ∉ p.data)
    (hm1 : d1.month < 100) (hd1 : d1.day < 100) (hm2 : d2.month < 100) (hd2 : d2.day < 100) :
    reparse (.gdf [row]) (.date d1) (.date d2) community parameters t s f =
      some ⟨t, s, community, parameters,
        (if t ∈ (["monthly", "climatology"] : List String) then ⟨d1.year, 1, 1⟩ else d1),
        (if t ∈ (["monthly", "climatology"] : List String) then ⟨d2.year, 1, 1⟩ else d2),
        f, row⟩ := by
  have heff : effParams parameters = parameters := by simp [effParams, hne]
  have hl15e : t = "hourly" → (effParams parameters).length ≤ 15 := by rw [heff]; exact hl15
  have hl20e : (effParams parameters).length ≤ 20 := by rw [heff]; exact hl20
  simp only [reparse, validateBuild_ok ht hc hs hf hcompat hl15e hl20e hpt hpg hco hdate hclim]
  simp only [parseWire, parseEndpoint_serverUrl ht hs]
  have hparams : (splitOnChar ',' (commaJoin (effParams parameters)).data).map String.mk =
      parameters := by
    rw [heff]
    exact split_commaJoin hne hcf
  by_cases hm : t ∈ (["monthly", "climatology"] : List String)
  · have hpd : ∀ d : PyDate, parseDateField t (fmtY d) = some ⟨d.year, 1, 1⟩ := by
      intro d
      unfold parseDateField
      rw [if_pos (by simpa using hm), parseY_fmtY]
    simp only [if_pos hm, hpd, parseGeom_coordsOf hs hpt hpg hco, hparams]
  · have hor : ¬(t = "monthly" ∨ t = "climatology") := by simpa using hm
    have hpd1 : parseDateField t (fmtYMD d1) = some d1 := by
      unfold parseDateField
      rw [if_neg hor, parseYMD_fmtYMD hm1 hd1]
    have hpd2 : parseDateField t (fmtYMD d2) = some d2 := by
      unfold parseDateField
      rw [if_neg hor, parseYMD_fmtYMD hm2 hd2]
    simp only [if_neg hm, hpd1, hpd2, parseGeom_coordsOf hs hpt hpg hco, hparams]

theorem C2_witness :
    reparse (.gdf [GeomRow.point 23 37]) (.date ⟨2022, 1, 5⟩) (.date ⟨2022, 2, 1⟩) "ag"
        ["T2M", "WS2M"] "daily" "point" "csv" =
      some ⟨"daily", "point", "ag", ["T2M", "WS2M"], ⟨2022, 1, 5⟩, ⟨2022, 2, 1⟩, "csv",
        GeomRow.point 23 37⟩ := by
  rw [C2_roundtrip_amended (by decide) (by decide) (by decide) (by decide) (by decide)
    (by decide) (by decide) (by decide) (by decide)
    (show coordsOf (GeomRow.point 23 37) = .ok [("latitude", (37 : ℚ)), ("longitude", 23)] from
      rfl)
    (by decide) (by decide) (by decide) (by decide) (by decide) (by decide) (by decide)
    (by decide)]
  decide

theorem read_csv_error_kind {s : List Char} {e : Err} (h : read_csv s = .error e) :
    e.kind = .valueKind := by
  unfold read_csv at h
  split_ifs at h with h1
  · cases Except.error.inj h
    rfl
  · split at h
    · cases Except.error.inj h
      rfl
    · exact Except.noConfusion h

theorem dispositionName_error_kind {cd : String} {e : Err}
    (h : dispositionName cd = .error e) : e.kind = .indexKind := by
  unfold dispositionName at h
  split at h
  · exact Except.noConfusion h
  · cases Except.error.inj h
    rfl

theorem decode_error_kinds {resp : RawResponse} {fileFormat : String} {to_file : Bool}
    {path : String} {e : Err} (he : (decode resp fileFormat to_file path).2 = .error e) :
    (resp.status_code ≠ 200 ∧ e.kind = .protocolKind) ∨
      (resp.status_code = 200 ∧ (e.kind = .valueKind ∨ e.kind = .indexKind)) := by
  unfold decode at he
  by_cases h200 : resp.status_code = 200
  · right
    refine ⟨h200, ?_⟩
    rw [if_neg (by simp [HTTP_OK, h200])] at he
    cases hdn : dispositionName resp.content_disposition with
    | error edn =>
      rw [hdn] at he
      simp only at he
      cases Except.error.inj he
      exact Or.inr (dispositionName_error_kind hdn)
    | ok name =>
      rw [hdn] at he
      simp only at he
      by_cases h1 : fileFormat = "netcdf"
      · rw [if_pos h1] at he
        simp at he
      · rw [if_neg h1] at he
        by_cases h2 : fileFormat = "csv" ∨ fileFormat = "ascii"
        · rw [if_pos h2] at he
          split at he
          · rename_i header rest heq
            cases hrc : read_csv (joinChar '\n' (splitOnChar '\n' (trimChars rest))) with
            | error ecsv =>
              rw [hrc] at he
              simp only at he
              cases Except.error.inj he
              exact Or.inl (read_csv_error_kind hrc)
            | ok data =>
              rw [hrc] at he
              simp only at he
              split_ifs at he
          · simp only at he
            cases Except.error.inj he
            exact Or.inl rfl
        · rw [if_neg h2] at he
          simp at he
  · left
    rw [if_pos (by simpa [HTTP_OK] using h200)] at he
    cases Except.error.inj he
    exact ⟨h200, rfl⟩

/-- C3 (amended): every validation error — TypeKind, ValueKind or the
IndexKind of an empty GeoDataFrame — is raised before the fetch is
invoked, and no fetch happens on a validation-failure execution. After
the fetch completes, ProtocolKind is raised exactly on non-200 statuses,
and on a 200 status the decoder may still raise decode errors for a
malformed body or header — ValueKind or IndexKind, never TypeKind — so
ProtocolKind is not the only post-fetch error. -/
theorem C3_validation_before_fetch (geometry : GeomArg) (start stop : DateArg) (to_file : Bool)
    (path community : String) (parameters : List String)
    (temporal_api spatial_api fileFormat : String) (resp : RawResponse) :
    (∀ e, validateBuild geometry start stop community parameters temporal_api spatial_api
        fileFormat = .error e →
      (query_power geometry start stop to_file path community parameters temporal_api
          spatial_api fileFormat resp).fetchCalled = false ∧
      (query_power geometry start stop to_file path community parameters temporal_api
          spatial_api fileFormat resp).result = .error e) ∧
    ((query_power geometry start stop to_file path community parameters temporal_api
        spatial_api fileFormat resp).fetchCalled = true →
      ∀ e, (query_power geometry start stop to_file path community parameters temporal_api
          spatial_api fileFormat resp).result = .error e →
        (resp.status_code ≠ 200 ∧ e.kind = .protocolKind) ∨
        (resp.status_code = 200 ∧ e.kind ≠ .typeKind ∧ e.kind ≠ .protocolKind)) := by
  rcases hv : validateBuild geometry start stop community parameters temporal_api spatial_api
      fileFormat with ev | w
  · have hq : query_power geometry start stop to_file path community parameters temporal_api
        spatial_api fileFormat resp = ⟨false, [], .error ev⟩ := by
      unfold query_power
      rw [hv]
    constructor
    · intro e he
      cases Except.error.inj he
      rw [hq]
      exact ⟨rfl, rfl⟩
    · intro hfc
      rw [hq] at hfc
      simp at hfc
  · have hq : query_power geometry start stop to_file path community parameters temporal_api
        spatial_api fileFormat resp =
        ⟨true, (decode resp fileFormat to_file path).1, (decode resp fileFormat to_file path).2⟩ := by
      unfold query_power
      rw [hv]
    constructor
    · intro e he
      exact Except.noConfusion he
    · intro _ e he
      rw [hq] at he
      simp only at he
      rcases decode_error_kinds he with ⟨hne, hk⟩ | ⟨heq, hk⟩
      · exact Or.inl ⟨hne, hk⟩
      · refine Or.inr ⟨heq, ?_, ?_⟩
        · rcases hk with h | h <;> rw [h] <;> decide
        · rcases hk with h | h <;> rw [h] <;> decide

theorem C3_witness :
    (query_power .notGdf .notDate .notDate true "./" "ag" [] "daily" "point" "csv"
        ⟨200, "cd=x", "https://u", "b"⟩).fetchCalled = false ∧
    (query_power .notGdf .notDate .notDate true "./" "ag" [] "daily" "point" "csv"
        ⟨200, "cd=x", "https://u", "b"⟩).result =
      .error ⟨.typeKind, "Argument geometry must be a GeoDataframe."⟩ :=
  (C3_validation_before_fetch .notGdf .notDate .notDate true "./" "ag" [] "daily" "point" "csv"
      ⟨200, "cd=x", "https://u", "b"⟩).1 ⟨.typeKind, "Argument geometry must be a GeoDataframe."⟩
    (by decide)

theorem filterMap_all_some {α β : Type} {l : List α} {f : α → Option β} {r : β}
    (h : ∀ x ∈ l, f x = some r) : l.filterMap f = List.replicate l.length r := by
  induction l with
  | nil => rfl
  | cons x l ih =>
    rw [List.filterMap_cons, h x (List.mem_cons_self x l)]
    rw [List.length_cons, List.replicate_succ, ih (fun y hy => h y (List.mem_cons_of_mem x hy))]

theorem getD_replicate_self {α : Type} {n i : Nat} {r d : α} (h : i < n) :
    (List.replicate n r).getD i d = r := by
  rw [List.getD_eq_getElem _ _ (by simpa using h)]
  exact List.getElem_replicate _ _

theorem mergeSort_replicate (n : Nat) (r : ℚ) (le : ℚ → ℚ → Bool) :
    (List.replicate n r).mergeSort le = List.replicate n r := by
  have hmem : ∀ x ∈ (List.replicate n r).mergeSort le, x = r := fun x hx =>
    List.eq_of_mem_replicate (List.mem_mergeSort.mp hx)
  have h2 := List.eq_replicate_of_mem hmem
  rwa [List.length_mergeSort, List.length_replicate] at h2

theorem percentileVal_replicate {n q : Nat} (hn : 0 < n) (hq : q ≤ 100) (r : ℚ) :
    percentileVal (List.replicate n r) q = r := by
  simp only [percentileVal]
  rw [mergeSort_replicate, List.length_replicate]
  have hk : q * (n - 1) / 100 < n := by
    have h1 : q * (n - 1) ≤ 100 * (n - 1) := Nat.mul_le_mul_right _ hq
    have h2 : q * (n - 1) / 100 ≤ 100 * (n - 1) / 100 := Nat.div_le_div_right h1
    have h3 : 100 * (n - 1) / 100 = n - 1 := Nat.mul_div_cancel_left _ (by norm_num)
    omega
  rw [getD_replicate_self hk]
  by_cases hk2 : q * (n - 1) / 100 + 1 < n
  · rw [getD_replicate_self hk2]
    ring
  · rw [List.getD_eq_default _ _ (by simpa using Nat.le_of_not_lt hk2)]
    ring

/-- C7 (counterexample): the claim promises, for every table of at least 200
rows, percentile computation with fallback and no error to the caller. On
a 250-row table whose ALLSKY_SFC_SW_DWN cells are all missing, no ratio
is defined, and the np.percentile call of pyNASAPower.py line 147 — which
sits outside the try/except — raises on the empty selection, propagating
to the caller instead of returning the default pair. -/
theorem C7_counterexample_empty_ratios :
    (List.replicate 250 (⟨none, some 1⟩ : RadRow)).length = 250 ∧
    estimate_AngstAB (List.replicate 250 ⟨none, some 1⟩) (29/100) (49/100) =
      .error ⟨.indexKind, "cannot do a non-empty take from an empty axes."⟩ := by
  constructor <;> decide

/-- C7 (amended): with at least 200 rows and at least one defined
surface/top-of-atmosphere quotient, the estimator takes A as the 5th
percentile and A+B as the 98th percentile of the defined quotients and
returns the caller-supplied default pair instead of the computed pair
exactly when the absolute-value range checks of check_angstromAB fail,
without raising to the caller; with at least 200 rows and no defined
quotient the np.percentile error propagates to the caller; in particular
a 250-row table with constant defined quotient r gives B = 0, which
always fails the range check, so the default pair is returned. -/
theorem C7_estimator_percentiles_guarded (df_power : List RadRow) (angstA angstB : ℚ) :
    (200 ≤ df_power.length → df_power.filterMap RadRow.rel ≠ [] →
      estimate_AngstAB df_power angstA angstB =
        .ok (if |percentileVal (df_power.filterMap RadRow.rel) 5| < 1/10 ∨
            |percentileVal (df_power.filterMap RadRow.rel) 5| > 4/10 ∨
            |percentileVal (df_power.filterMap RadRow.rel) 98 -
              percentileVal (df_power.filterMap RadRow.rel) 5| < 3/10 ∨
            |percentileVal (df_power.filterMap RadRow.rel) 98 -
              percentileVal (df_power.filterMap RadRow.rel) 5| > 7/10 ∨
            |percentileVal (df_power.filterMap RadRow.rel) 5| +
              |percentileVal (df_power.filterMap RadRow.rel) 98 -
                percentileVal (df_power.filterMap RadRow.rel) 5| < 6/10 ∨
            |percentileVal (df_power.filterMap RadRow.rel) 5| +
              |percentileVal (df_power.filterMap RadRow.rel) 98 -
                percentileVal (df_power.filterMap RadRow.rel) 5| > 9/10 then
          (angstA, angstB)
        else
          (percentileVal (df_power.filterMap RadRow.rel) 5,
            percentileVal (df_power.filterMap RadRow.rel) 98 -
              percentileVal (df_power.filterMap RadRow.rel) 5))) ∧
    (200 ≤ df_power.length → df_power.filterMap RadRow.rel = [] →
      estimate_AngstAB df_power angstA angstB =
        .error ⟨.indexKind, "cannot do a non-empty take from an empty axes."⟩) ∧
    (∀ r : ℚ, df_power.length = 250 → (∀ row ∈ df_power, RadRow.rel row = some r) →
      estimate_AngstAB df_power angstA angstB = .ok (angstA, angstB)) := by
  have hv : List.filterMap id (List.map RadRow.rel df_power) =
      df_power.filterMap RadRow.rel := by
    rw [List.filterMap_map]
    rfl
  refine ⟨?_, ?_, ?_⟩
  · intro h200 hne
    simp only [estimate_AngstAB]
    rw [if_neg (by omega), hv]
    have hp : ∀ q : Nat, percentile (df_power.filterMap RadRow.rel) q =
        .ok (percentileVal (df_power.filterMap RadRow.rel) q) := by
      intro q
      unfold percentile
      rw [if_neg hne]
    simp only [hp]
    simp only [check_angstromAB]
    set A := percentileVal (df_power.filterMap RadRow.rel) 5 with hA
    set AB := percentileVal (df_power.filterMap RadRow.rel) 98 with hAB
    by_cases h1 : |A| < 1/10 ∨ |A| > 4/10
    · rw [if_pos h1, if_pos (by tauto)]
    · rw [if_neg h1]
      by_cases h2 : |AB - A| < 3/10 ∨ |AB - A| > 7/10
      · rw [if_pos h2, if_pos (by tauto)]
      · rw [if_neg h2]
        by_cases h3 : |A| + |AB - A| < 6/10 ∨ |A| + |AB - A| > 9/10
        · rw [if_pos h3, if_pos (by tauto)]
        · rw [if_neg h3, if_neg (by tauto)]
  · intro h200 hempty
    simp only [estimate_AngstAB]
    rw [if_neg (by omega), hv, hempty]
    rfl
  · intro r h250 hall
    simp only [estimate_AngstAB]
    rw [if_neg (by omega)]
    have hv2 : List.filterMap id (List.map RadRow.rel df_power) = List.replicate 250 r := by
      rw [List.filterMap_map]
      show List.filterMap RadRow.rel df_power = List.replicate 250 r
      have h4 := filterMap_all_some hall
      rw [h4, h250]
    rw [hv2]
    have hp : ∀ q : Nat, q ≤ 100 → percentile (List.replicate 250 r) q = .ok r := by
      intro q hq
      unfold percentile
      rw [if_neg (by simp), percentileVal_replicate (by norm_num) hq r]
    simp only [hp 5 (by norm_num), hp 98 (by norm_num)]
    simp only [check_angstromAB, sub_self]
    by_cases h1 : |r| < 1/10 ∨ |r| > 4/10
    · rw [if_pos h1]
    · rw [if_neg h1, if_pos (Or.inl (by rw [abs_zero]; norm_num))]

theorem C7_witness :
    estimate_AngstAB (List.replicate 250 ⟨some 3, some 1⟩) (29/100) (49/100) =
      .ok (29/100, 49/100) :=
  (C7_estimator_percentiles_guarded (List.replicate 250 ⟨some 3, some 1⟩) (29/100)
      (49/100)).2.2 3 (by simp)
    (by
      intro row hrow
      rw [List.eq_of_mem_replicate hrow]
      simp [RadRow.rel])

theorem mask_cell (fill : ℚ) (xs : List ℚ) (i : Nat) :
    (maskFill fill xs).getD i none = none ∨
      ∃ v, (maskFill fill xs).getD i none = some v ∧ v ≠ fill := by
  by_cases hi : i < (maskFill fill xs).length
  · rw [List.getD_eq_getElem _ _ hi]
    have hi2 : i < xs.length := by simpa [maskFill] using hi
    unfold maskFill
    rw [List.getElem_map]
    by_cases hx : xs[i] = fill
    · left
      rw [if_pos hx]
    · right
      exact ⟨xs[i], by rw [if_neg hx], hx⟩
  · left
    exact List.getD_eq_default _ _ (Nat.le_of_not_lt hi)

/-- C10: the legacy record-processing step removes every row containing a
missing value — after processing, every cell of every row is a defined
value different from the fill value — and the estimator consuming the
processed table applies its 200-row threshold to the count of complete
rows: whenever fewer than 200 complete rows remain, whatever the number n
of rows received from the server, the default Angstrom pair is returned. -/
theorem C10_complete_rows (pd : PowerData) (n : Nat) :
    (∀ row ∈ process_POWER_records pd n, ∀ c ∈ row, ∃ v, c = some v ∧ v ≠ pd.fillValue) ∧
    (∀ angstA angstB : ℚ, (process_POWER_records pd n).length < 200 →
      get_and_process_Angst pd n angstA angstB = .ok (angstA, angstB)) := by
  constructor
  · intro row hrow c hc
    unfold process_POWER_records at hrow
    obtain ⟨hmem, hfilt⟩ := List.mem_filter.mp hrow
    have hnone : ∀ x ∈ row, ¬x.isNone := by
      intro x hx hn
      have : row.any Option.isNone = true := List.any_eq_true.mpr ⟨x, hx, hn⟩
      simp [this] at hfilt
    obtain ⟨i, hi, hrw⟩ := List.mem_map.mp hmem
    subst hrw
    unfold powerRow at hc
    obtain ⟨vn, hvn, hcell⟩ := List.mem_map.mp hc
    rcases mask_cell pd.fillValue (pd.series vn) i with h | ⟨v, hv, hvne⟩
    · exfalso
      refine hnone c hc ?_
      rw [← hcell, h]
      rfl
    · exact ⟨v, by rw [← hcell, hv], hvne⟩
  · intro angstA angstB hlen
    unfold get_and_process_Angst
    unfold estimate_AngstAB
    rw [if_pos (by simpa using hlen)]

theorem C10_witness :
    get_and_process_Angst ⟨-999, fun v => if v = "T2M" then [1, -999] else [1, 2]⟩ 2 (29/100)
        (49/100) = .ok (29/100, 49/100) :=
  (C10_complete_rows ⟨-999, fun v => if v = "T2M" then [1, -999] else [1, 2]⟩ 2).2 (29/100)
    (49/100) (by decide)
